import Mathlib

/-!
# Verification model of the cake-gobbler ingestion pipeline

This file gives a shallow embedding, in Lean, of the decision logic of the
`cake_gobbler` PDF-ingestion system, and proves (or refutes) the frozen
specification claims about it.  Each definition is translated directly from
the Python source:

* `is_pdf_acceptable`, `has_critical_issues`  — `core/pdf_processor.py`
* `analyze_file` and its pikepdf fallback    — `core/pdf_analyzer.py`
* `distribute_embeddings`                    — `core/ingestion.py`
* `increment_*`, `end_run`                   — `core/run_manager.py`
* `file_needs_processing`                    — `core/db_manager.py`
* `ingest_file`                              — `core/ingestion.py`
* the CLI exception handler                  — `cli/main.py`

External collaborators (the Ray workers, the pikepdf/pymupdf backends, the
SQLite store, the vector store) are modelled as explicit environment values:
a function or a data field stands for "what the external call returned", and
an `Option`/tagged value stands for "the call raised".  Nondeterministic
completion order of the worker pool is modelled by an explicit schedule
argument that selects which outstanding task finishes next.
-/

namespace CakeGobbler

/-- Python's `sep.join(parts)`: empty string for `[]`, no trailing separator. -/
def joinSep (sep : String) : List String → String
  | [] => ""
  | [x] => x
  | x :: y :: ys => x ++ sep ++ joinSep sep (y :: ys)

/-- `needle` occurs contiguously inside `hay` (substring, at the level of the
underlying character list). -/
def strContainsSub (needle hay : String) : Prop :=
  ∃ p s, hay.data = p ++ needle.data ++ s

/-! ## Data model of PDF analysis (`models/pdf_models.py`, `core/pdf_analyzer.py`) -/

/-- `EncodingType` enum of `pdf_analyzer.py`. -/
inductive EncodingType where
  | ASCII | UTF8 | UTF8_WITH_BOM | UTF16 | UTF16BE | UTF16LE
  | UTF16BE_WITH_BOM | UTF16LE_WITH_BOM | IDENTITY_H | WINANSI
  | MACROMAN | LATIN1 | CUSTOM | UNKNOWN
deriving DecidableEq, Repr

/-- `PDFIssueType` enum of `pdf_analyzer.py`. -/
inductive PDFIssueType where
  | PASSWORD_PROTECTED | DAMAGED | ENCRYPTED | MISSING_FONTS
  | EMBEDDED_FILES | JAVASCRIPT | FORM_FIELDS | DIGITAL_SIGNATURES
  | LARGE_SIZE | HIGH_COMPRESSION | SCANNED_IMAGE | WATERMARK
  | CUSTOM_METADATA | UNUSUAL_STRUCTURE | ENCODING_ISSUE
  | UTF16_ENCODING | MIXED_ENCODINGS
deriving DecidableEq, Repr

/-- `PDFIssue` dataclass: a typed issue with free-form severity string
("low" / "medium" / "high"), pages and details. -/
structure PDFIssue where
  type : PDFIssueType
  description : String
  severity : String
  page_numbers : List Nat := []
  details : List (String × String) := []
deriving DecidableEq, Repr

/-- `FontInfo` dataclass. -/
structure FontInfo where
  name : String
  type : String
  encoding : EncodingType
  embedded : Bool
  subset : Bool
deriving DecidableEq, Repr

/-- `PDFAnalysisResult` dataclass.  The Python `encoding_types` set is
modelled as a duplicate-free list (insertion order), `metadata` as an
association list. -/
structure PDFAnalysisResult where
  filepath : String
  filesize : Nat
  num_pages : Nat
  is_encrypted : Bool
  is_damaged : Bool
  encoding_types : List EncodingType := []
  fonts : List FontInfo := []
  issues : List PDFIssue := []
  metadata : List (String × String) := []
deriving DecidableEq, Repr

/-- `PDFAnalysisResult.has_critical_issues`: any issue of severity "high". -/
def has_critical_issues (r : PDFAnalysisResult) : Bool :=
  r.issues.any (fun i => i.severity == "high")

/-! ## Acceptance policy (`PDFProcessor.is_pdf_acceptable`) -/

/-- The diagnostics bundle built by `is_pdf_acceptable`.  `all_issues` is the
serialized projection of the full issue list; we keep the issues themselves. -/
structure AcceptDiagnostics where
  issues_found : List String
  primary_rejection_reason : Option String
  all_issues : List PDFIssue
deriving DecidableEq, Repr

/-- `PDFProcessor.is_pdf_acceptable` (`core/pdf_processor.py`, lines 176-252):
returns `(is_acceptable, reason, detailed_diagnostics)`, checking in order:
critical (high-severity) issues, damaged, encrypted, no pages, scanned image
(accept with warning), encoding issues (accept with warning), acceptable. -/
def is_pdf_acceptable (r : PDFAnalysisResult) :
    Bool × String × AcceptDiagnostics :=
  if has_critical_issues r then
    let critical_issues :=
      (r.issues.filter (fun i => i.severity == "high")).map (·.description)
    (false, "Critical issues detected: " ++ joinSep ", " critical_issues,
      ⟨["critical_issues"], some "critical_issues", r.issues⟩)
  else if r.is_damaged then
    (false, "PDF is damaged", ⟨["damaged"], some "damaged", r.issues⟩)
  else if r.is_encrypted then
    (false, "PDF is encrypted", ⟨["encrypted"], some "encrypted", r.issues⟩)
  else if r.num_pages == 0 then
    (false, "PDF has no pages",
      ⟨["empty_document"], some "empty_document", r.issues⟩)
  else if r.issues.any (fun i => i.type == PDFIssueType.SCANNED_IMAGE) then
    (true, "PDF may be scanned (will attempt extraction but may fail)",
      ⟨["scanned_image"], some "likely_scanned_document", r.issues⟩)
  else if r.issues.any (fun i =>
      i.type == PDFIssueType.ENCODING_ISSUE ||
      i.type == PDFIssueType.UTF16_ENCODING ||
      i.type == PDFIssueType.MIXED_ENCODINGS) then
    (true,
      "PDF has encoding issues (will attempt extraction but may have character problems)",
      ⟨["encoding_issues"], none, r.issues⟩)
  else
    (true, "PDF is acceptable for processing", ⟨[], none, r.issues⟩)

/-! ## Structural analyzer (`PDFAnalyzer.analyze_file`, `core/pdf_analyzer.py`)

The analyzer consults two external parsers.  The primary one is
`self.pymupdf.analyze_pdf(...)` — note that `PyMuPDFInterface`
(`utils/pymupdf_interface.py`) defines no `analyze_pdf` method at all, so in
the shipped code this call always raises `AttributeError`; we still model the
full branch so that every line of `analyze_file` has a counterpart here.  The
fallback is pikepdf (`_analyze_with_pikepdf`). -/

/-- `EncodingType[s]` enum lookup by member name (raises `KeyError`, i.e.
`none`, for unknown names). -/
def encodingTypeOfName (s : String) : Option EncodingType :=
  if s == "ASCII" then some .ASCII
  else if s == "UTF8" then some .UTF8
  else if s == "UTF8_WITH_BOM" then some .UTF8_WITH_BOM
  else if s == "UTF16" then some .UTF16
  else if s == "UTF16BE" then some .UTF16BE
  else if s == "UTF16LE" then some .UTF16LE
  else if s == "UTF16BE_WITH_BOM" then some .UTF16BE_WITH_BOM
  else if s == "UTF16LE_WITH_BOM" then some .UTF16LE_WITH_BOM
  else if s == "IDENTITY_H" then some .IDENTITY_H
  else if s == "WINANSI" then some .WINANSI
  else if s == "MACROMAN" then some .MACROMAN
  else if s == "LATIN1" then some .LATIN1
  else if s == "CUSTOM" then some .CUSTOM
  else if s == "UNKNOWN" then some .UNKNOWN
  else none

/-- `PDFIssueType[s]` enum lookup by member name. -/
def issueTypeOfName (s : String) : Option PDFIssueType :=
  if s == "PASSWORD_PROTECTED" then some .PASSWORD_PROTECTED
  else if s == "DAMAGED" then some .DAMAGED
  else if s == "ENCRYPTED" then some .ENCRYPTED
  else if s == "MISSING_FONTS" then some .MISSING_FONTS
  else if s == "EMBEDDED_FILES" then some .EMBEDDED_FILES
  else if s == "JAVASCRIPT" then some .JAVASCRIPT
  else if s == "FORM_FIELDS" then some .FORM_FIELDS
  else if s == "DIGITAL_SIGNATURES" then some .DIGITAL_SIGNATURES
  else if s == "LARGE_SIZE" then some .LARGE_SIZE
  else if s == "HIGH_COMPRESSION" then some .HIGH_COMPRESSION
  else if s == "SCANNED_IMAGE" then some .SCANNED_IMAGE
  else if s == "WATERMARK" then some .WATERMARK
  else if s == "CUSTOM_METADATA" then some .CUSTOM_METADATA
  else if s == "UNUSUAL_STRUCTURE" then some .UNUSUAL_STRUCTURE
  else if s == "ENCODING_ISSUE" then some .ENCODING_ISSUE
  else if s == "UTF16_ENCODING" then some .UTF16_ENCODING
  else if s == "MIXED_ENCODINGS" then some .MIXED_ENCODINGS
  else none

/-- A raw issue dict from the (hypothetical) pymupdf analysis response. -/
structure RawIssue where
  type : String
  description : String
  severity : String
  page_numbers : List Nat := []
  details : List (String × String) := []
deriving DecidableEq, Repr

/-- A raw font dict from the (hypothetical) pymupdf analysis response. -/
structure RawFont where
  name : String
  type : String
  encoding : String
  embedded : Bool
  subset : Bool
deriving DecidableEq, Repr

/-- What `self.pymupdf.analyze_pdf(...)` would return if it returned a dict. -/
structure PymupdfAnalysis where
  success : Bool
  errorMsg : Option String := none
  num_pages : Nat := 0
  is_encrypted : Bool := false
  is_damaged : Bool := false
  metadata : List (String × String) := []
  encoding_types : List String := []
  fonts : List RawFont := []
  issues : List RawIssue := []
deriving DecidableEq, Repr

/-- One font extracted by pikepdf page traversal: page index, base font name,
subtype, encoding string, and whether a FontFile is present. -/
structure PkFont where
  page : Nat
  base_font : String
  font_type : String
  encoding_str : String
  embedded : Bool
deriving DecidableEq, Repr

/-- What `pikepdf.open` exposed: page count, docinfo, embedded-file flag,
object count and the font resources of each page. -/
structure PikepdfData where
  num_pages : Nat
  docinfo : List (String × String) := []
  hasEmbeddedFiles : Bool := false
  objectCount : Nat := 0
  fonts : List PkFont := []
deriving DecidableEq, Repr

/-- Outcome of the pikepdf fallback: an exception, a `PasswordError`
(caught inside `_analyze_with_pikepdf`), or a successful open. -/
inductive PikepdfOutcome where
  | raises (msg : String)
  | passwordError
  | ok (d : PikepdfData)
deriving DecidableEq, Repr

/-- Environment of one `analyze_file` call: what the file system and the two
external parsers do.  `pymupdf = none` models the call raising — which is the
only possible behaviour of the shipped `PyMuPDFInterface`, since it defines
no `analyze_pdf` method (`pymupdfErr` is then the exception text). -/
structure AnalyzeEnv where
  path : String
  fileExists : Bool
  filesize : Nat
  headerIsPDF : Bool
  pymupdf : Option PymupdfAnalysis
  pymupdfErr : String := "AttributeError"
  pikepdf : PikepdfOutcome
deriving DecidableEq, Repr

/-- Bool substring test (Python's `in` on strings), used on encoding names. -/
def strContainsSubB (needle hay : String) : Bool :=
  decide (needle.data <:+: hay.data)

/-- Body of the font loop of `_extract_fonts_with_pikepdf`: dedup by base
font name, classify the encoding string, record the font, and flag
non-embedded non-Type1 fonts as MISSING_FONTS (medium). -/
def pkFontsGo : List PkFont → List String → PDFAnalysisResult → PDFAnalysisResult
  | [], _, r => r
  | f :: fs, seen, r =>
    if f.base_font ∈ seen then pkFontsGo fs seen r
    else
      let enc :=
        if strContainsSubB "Identity-H" f.encoding_str then EncodingType.IDENTITY_H
        else if strContainsSubB "WinAnsi" f.encoding_str then EncodingType.WINANSI
        else if strContainsSubB "MacRoman" f.encoding_str then EncodingType.MACROMAN
        else if strContainsSubB "Custom" f.encoding_str then EncodingType.CUSTOM
        else EncodingType.UNKNOWN
      let encs :=
        if enc = EncodingType.UNKNOWN then r.encoding_types
        else if enc ∈ r.encoding_types then r.encoding_types
        else r.encoding_types ++ [enc]
      let is_subset := f.base_font.contains '+'
      let fonts' := r.fonts ++
        [⟨f.base_font, f.font_type, enc, f.embedded, is_subset⟩]
      let issues' := r.issues ++
        (if !f.embedded && !(f.font_type == "/Type1" || f.font_type == "/MMType1") then
          [⟨PDFIssueType.MISSING_FONTS, "Non-embedded font: " ++ f.base_font,
            "medium", [f.page], []⟩]
        else [])
      pkFontsGo fs (seen ++ [f.base_font])
        { r with encoding_types := encs, fonts := fonts', issues := issues' }

/-- `_analyze_with_pikepdf` on a successfully opened document: page count,
docinfo metadata, EMBEDDED_FILES issue, UNUSUAL_STRUCTURE heuristic
(object count above 10x page count), then the font loop. -/
def analyze_with_pikepdf (d : PikepdfData) (r : PDFAnalysisResult) :
    PDFAnalysisResult :=
  let r1 := { r with num_pages := d.num_pages }
  let r2 := if d.docinfo.isEmpty then r1 else { r1 with metadata := d.docinfo }
  let r3 :=
    if d.hasEmbeddedFiles then
      { r2 with issues := r2.issues ++
        [⟨PDFIssueType.EMBEDDED_FILES, "PDF contains embedded files", "medium", [], []⟩] }
    else r2
  let r4 :=
    if d.num_pages * 10 < d.objectCount then
      { r3 with issues := r3.issues ++
        [⟨PDFIssueType.UNUSUAL_STRUCTURE,
          "PDF has an unusually complex structure (" ++ toString d.objectCount ++ " objects)",
          "medium", [], []⟩] }
    else r3
  pkFontsGo d.fonts [] r4

/-- The pikepdf fallback including its `PasswordError` handler: a password
error marks the result encrypted with a high PASSWORD_PROTECTED issue; any
other exception propagates to the caller (`.error`). -/
def runPikepdf (o : PikepdfOutcome) (r : PDFAnalysisResult) :
    Except String PDFAnalysisResult :=
  match o with
  | .raises msg => .error msg
  | .passwordError =>
      .ok { r with
        is_encrypted := true
        issues := r.issues ++
          [⟨PDFIssueType.PASSWORD_PROTECTED, "PDF is password protected", "high", [], []⟩] }
  | .ok d => .ok (analyze_with_pikepdf d r)

/-- Processing of a successful pymupdf analysis dict (`analyze_file`,
lines 308-381): copy scalars, metadata if non-empty, parse encoding names
(unknown ones skipped), fonts (unknown encodings become UNKNOWN) and issues
(unknown issue types skipped). -/
def processPymupdf (a : PymupdfAnalysis) (r : PDFAnalysisResult) :
    PDFAnalysisResult :=
  let r1 := { r with
    num_pages := a.num_pages
    is_encrypted := a.is_encrypted
    is_damaged := a.is_damaged }
  let r2 := if a.metadata.isEmpty then r1 else { r1 with metadata := a.metadata }
  let r3 := a.encoding_types.foldl (fun acc s =>
      match encodingTypeOfName s with
      | some e => if e ∈ acc.encoding_types then acc
                  else { acc with encoding_types := acc.encoding_types ++ [e] }
      | none => acc) r2
  let r4 := { r3 with fonts := r3.fonts ++ a.fonts.map (fun f : RawFont =>
      (⟨f.name, f.type, (encodingTypeOfName f.encoding).getD EncodingType.UNKNOWN,
        f.embedded, f.subset⟩ : FontInfo)) }
  { r4 with issues := r4.issues ++ a.issues.filterMap (fun i : RawIssue =>
      match issueTypeOfName i.type with
      | some t => some (⟨t, i.description, i.severity, i.page_numbers, i.details⟩ : PDFIssue)
      | none => none) }

/-- `PDFAnalyzer.analyze_file` (`core/pdf_analyzer.py`, lines 251-395).
A missing file raises `FileNotFoundError` (`.error`); everything else
returns a result: magic-byte failure short-circuits to a damaged result,
then the pymupdf call is attempted (in the shipped code it always raises,
as `PyMuPDFInterface` has no `analyze_pdf`), falling back to pikepdf, and
a double failure yields a damaged result instead of an exception. -/
def analyze_file (env : AnalyzeEnv) : Except String PDFAnalysisResult :=
  if !env.fileExists then .error ("File not found: " ++ env.path)
  else
    let base : PDFAnalysisResult :=
      { filepath := env.path
        filesize := env.filesize
        num_pages := 0
        is_encrypted := false
        is_damaged := false }
    if !env.headerIsPDF then
      .ok { base with
        is_damaged := true
        issues := [⟨PDFIssueType.DAMAGED,
          "File does not appear to be a valid PDF", "high", [], []⟩] }
    else
      match env.pymupdf with
      | some a =>
        if !a.success then
          match runPikepdf env.pikepdf base with
          | .ok r => .ok r
          | .error e2 =>
            .ok { base with
              is_damaged := true
              issues := base.issues ++
                [⟨PDFIssueType.DAMAGED,
                  "Failed to analyze PDF: " ++ a.errorMsg.getD "Unknown error" ++ "; " ++ e2,
                  "high", [], []⟩] }
        else .ok (processPymupdf a base)
      | none =>
        match runPikepdf env.pikepdf base with
        | .ok r => .ok r
        | .error e2 =>
          .ok { base with
            is_damaged := true
            issues := base.issues ++
              [⟨PDFIssueType.DAMAGED,
                "Failed to analyze PDF: " ++ env.pymupdfErr ++ "; " ++ e2,
                "high", [], []⟩] }

/-! ## Worker-pool scheduler (`IngestionManager.distribute_embeddings`,
`core/ingestion.py`, lines 323-373)

The Ray actor pool is modelled by an explicit schedule: at every iteration of
the dispatch loop, `ray.wait` unblocks on some completed task and the `for`
loop processes the first completed one in dict (= actor-insertion) order; the
schedule entry selects, modulo the number of outstanding tasks, which
outstanding slot finishes.  Results are accumulated exactly as the source
does: `results.extend(batch_result)` at completion time. -/

/-- Python slicing loop `[chunks[i:i+bs] for i in range(0, len(chunks), bs)]`.
The `fuel` argument (instantiated with `l.length`) only serves structural
termination; each step consumes at least one element because the caller
passes `bs = max 1 _ ≥ 1`. -/
def sliceChunksF (bs : Nat) : Nat → List α → List (List α)
  | _, [] => []
  | 0, _ :: _ => []
  | fuel + 1, x :: xs => (x :: xs).take bs :: sliceChunksF bs fuel ((x :: xs).drop bs)

/-- Partition a list into contiguous slices of `bs` elements (last may be
shorter), as the Python list comprehension does for `bs ≥ 1`. -/
def sliceChunks (bs : Nat) (l : List α) : List (List α) :=
  sliceChunksF bs l.length l

/-- `batch_size = max(1, len(chunks) // len(embedding_model_managers))` —
note the floor division in the source. -/
def batchSizeOf (total workers : Nat) : Nat :=
  max 1 (total / workers)

/-- `batches = [chunks[i:i + batch_size] for i in range(0, len(chunks), batch_size)]`. -/
def mkBatches (chunks : List α) (workers : Nat) : List (List α) :=
  sliceChunks (batchSizeOf chunks.length workers) chunks

/-- The dynamic dispatch loop of `distribute_embeddings`.  `pending` holds the
batch index currently assigned to each live actor, in dict order; each
schedule entry picks (mod the number of outstanding tasks) which one
completes next.  On completion its results are appended (`results.extend`),
and the actor either receives batch `nextIdx` or is retired.  `none` means
the schedule ended while tasks were still outstanding. -/
def runSched (batches : List (List α)) (f : α → β) :
    List Nat → List Nat → List β → Nat → Option (List β)
  | _, [], results, _ => some results
  | [], _ :: _, _, _ => none
  | k :: sched, p :: ps, results, nextIdx =>
    let pending := p :: ps
    let k' := k % pending.length
    let b := pending.getD k' 0
    let results' := results ++ (batches.getD b []).map f
    if nextIdx < batches.length then
      runSched batches f sched (pending.set k' nextIdx) results' (nextIdx + 1)
    else
      runSched batches f sched (pending.eraseIdx k') results' nextIdx

/-- `IngestionManager.distribute_embeddings`, with the embedding backend
modelled by `f` (one vector per chunk, in order, per worker call) and the
completion order by `schedule`.  Fast path: a single chunk or a single
worker goes to `managers[0]` synchronously (`none` if the pool is empty —
`managers[0]` would raise `IndexError`).  General path: slice into batches
of `max 1 (M / N)` chunks, give batch `i` to actor `i` (when it exists),
set `next_batch_idx = N`, and run the dispatch loop. -/
def distribute_embeddings (f : α → β) (chunks : List α) (workers : Nat)
    (schedule : List Nat) : Option (List β) :=
  if chunks.length ≤ 1 || workers ≤ 1 then
    if workers == 0 then none else some (chunks.map f)
  else
    let batches := mkBatches chunks workers
    runSched batches f schedule (List.range (min workers batches.length)) [] workers

/-! ## Run controller (`RunManager`, `core/run_manager.py`) -/

/-- The mutable state of a `RunManager`: identity, counters and status.  The
status last written to the database by `update_run` is the `status` field of
the state returned by `end_run`. -/
structure RunMgrState where
  run_id : Option String
  total_files : Nat := 0
  processed_files : Nat := 0
  failed_files : Nat := 0
  skipped_files : Nat := 0
  already_processed_files : Nat := 0
  status : String := "not_started"
deriving DecidableEq, Repr

/-- Python truthiness of `self.run_id` (`if not self.run_id:`): `None` and
the empty string are falsy. -/
def runIdFalsy (rm : RunMgrState) : Bool :=
  match rm.run_id with
  | none => true
  | some s => s == ""

/-- The `ValueError` message raised by the counter operations and `end_run`. -/
def noRunMsg : String := "No run in progress. Call start_run() first."

/-- `RunManager.increment_processed` (lines 127-145): raises `ValueError`
when no run is in progress (state untouched), otherwise adds one to
`processed_files` and persists; returns the new count. -/
def increment_processed (rm : RunMgrState) : Except String Nat × RunMgrState :=
  if runIdFalsy rm then (.error noRunMsg, rm)
  else
    let rm' := { rm with processed_files := rm.processed_files + 1 }
    (.ok rm'.processed_files, rm')

/-- `RunManager.increment_failed` (lines 147-165). -/
def increment_failed (rm : RunMgrState) : Except String Nat × RunMgrState :=
  if runIdFalsy rm then (.error noRunMsg, rm)
  else
    let rm' := { rm with failed_files := rm.failed_files + 1 }
    (.ok rm'.failed_files, rm')

/-- `RunManager.increment_skipped` (lines 167-185). -/
def increment_skipped (rm : RunMgrState) : Except String Nat × RunMgrState :=
  if runIdFalsy rm then (.error noRunMsg, rm)
  else
    let rm' := { rm with skipped_files := rm.skipped_files + 1 }
    (.ok rm'.skipped_files, rm')

/-- `RunManager.increment_already_processed` (lines 187-207): adds one to
both `already_processed_files` and `skipped_files`, returning the former. -/
def increment_already_processed (rm : RunMgrState) :
    Except String Nat × RunMgrState :=
  if runIdFalsy rm then (.error noRunMsg, rm)
  else
    let rm' := { rm with
      already_processed_files := rm.already_processed_files + 1
      skipped_files := rm.skipped_files + 1 }
    (.ok rm'.already_processed_files, rm')

/-- `RunManager.end_run` (lines 257-328), with the database update assumed to
succeed (its own `except` branch, which persists `failed`, only runs when the
update itself raises): recomputes the final status from the counters —
`completed_with_errors` iff `failed_files > 0` — and persists it. -/
def end_run (rm : RunMgrState) : Except String RunMgrState :=
  if runIdFalsy rm then .error noRunMsg
  else
    let status := if rm.failed_files > 0 then "completed_with_errors" else "completed"
    .ok { rm with status := status }

/-- The CLI exception handler of `ingest_pdfs` (`cli/main.py`, lines 172-181):
when an exception escapes the per-file loop it sets
`run_manager.status = "failed"` and then calls `end_run()`. -/
def cli_mark_run_failed (rm : RunMgrState) : Except String RunMgrState :=
  end_run { rm with status := "failed" }

/-! ## Resumption ledger (`DatabaseManager`, `core/db_manager.py`) -/

/-- A row of the `ingestion_log` table (the columns the lookup touches). -/
structure IngRow where
  id : Nat
  file_path : String
  collection : String
  status : String
  run_id : String
  file_fingerprint : String
deriving DecidableEq, Repr

/-- A row of the `runs` table (the columns the lookup touches);
`collection` may be NULL. -/
structure RunRow where
  run_id : String
  collection : Option String
deriving DecidableEq, Repr

/-- The relational log store: the two tables the ledger consults. -/
structure Db where
  runs : List RunRow
  ingestion_log : List IngRow
deriving DecidableEq, Repr

/-- `ORDER BY il.id DESC LIMIT 1` over a filtered row list: the row with the
greatest `id` (ids are the primary key). -/
def maxById : List IngRow → Option IngRow
  | [] => none
  | x :: xs =>
    match maxById xs with
    | none => some x
    | some y => if x.id < y.id then some y else some x

/-- `DatabaseManager.get_ingestion_by_fingerprint` (lines 624-650): the SQL
joins `ingestion_log` with `runs` on `run_id` and filters on the **run's**
`collection` column (`r.collection = ?`), not on the log row's own
`collection` column. -/
def get_ingestion_by_fingerprint (db : Db) (file_fingerprint collection_name : String) :
    Option IngRow :=
  maxById (db.ingestion_log.filter (fun il =>
    il.file_fingerprint == file_fingerprint &&
    db.runs.any (fun r => r.run_id == il.run_id && r.collection == some collection_name)))

/-- `DatabaseManager.file_needs_processing` (lines 652-673): any prior record
found by the fingerprint+collection lookup — successful or not — means the
file does not need processing. -/
def file_needs_processing (db : Db) (file_fingerprint collection_name : String) :
    Bool × Option IngRow :=
  match get_ingestion_by_fingerprint db file_fingerprint collection_name with
  | some previous => (false, some previous)
  | none => (true, none)

/-! ## Per-file orchestration (`IngestionManager.ingest_file`,
`core/ingestion.py`, lines 144-321) -/

/-- A row appended to `ingestion_log` by `log_ingestion` during one
`ingest_file` call (the id is assigned by the database and irrelevant here). -/
structure LoggedRow where
  file_path : String
  collection : String
  status : String
  error_message : Option String
  run_id : String
  file_fingerprint : String
deriving DecidableEq, Repr

/-- Environment of one `ingest_file` call: the fingerprint computed for the
file, what the analyzer did (`none` = raised), what text extraction produced,
the chunks the text splitter returned, and whether the
connect/embed/store section raised. -/
structure IngestEnv where
  pdf_path : String
  fingerprint : String
  analysis : Option PDFAnalysisResult
  analysisErrMsg : String := ""
  extractRaises : Bool := false
  extractedText : String := ""
  chunks : List String := []
  postChunkRaises : Bool := false
  processErrMsg : String := ""
deriving DecidableEq, Repr

/-- `IngestionManager.ingest_file`: returns the status string and the list of
rows appended to `ingestion_log` during the call.  Faithful to the source:
the `already_processed` early return logs nothing; an analysis exception
logs `error`; a policy rejection, empty text or empty chunk list logs
`skipped`; an exception while extracting, embedding or storing logs `error`;
otherwise one `success` row is logged. -/
def ingest_file (db : Db) (collection run_id : String) (env : IngestEnv) :
    String × List LoggedRow :=
  let mkRow := fun (status : String) (msg : Option String) =>
    (⟨env.pdf_path, collection, status, msg, run_id, env.fingerprint⟩ : LoggedRow)
  let needs :=
    if env.fingerprint == "" then true
    else (file_needs_processing db env.fingerprint collection).1
  if !needs then
    ("already_processed", [])
  else
    match env.analysis with
    | none =>
      ("error", [mkRow "error" (some ("Analysis error: " ++ env.analysisErrMsg))])
    | some analysis_result =>
      let acc := is_pdf_acceptable analysis_result
      if !acc.1 then
        ("skipped", [mkRow "skipped" (some (acc.2.1 ++ ". Details: ..."))])
      else if env.extractRaises then
        ("error", [mkRow "error" (some ("Ingestion error: " ++ env.processErrMsg))])
      else if env.extractedText == "" then
        ("skipped", [mkRow "skipped" (some "Text extraction failed")])
      else if env.chunks.isEmpty then
        ("skipped", [mkRow "skipped"
          (some "No chunks were created from the extracted text. Cannot proceed with embedding.")])
      else if env.postChunkRaises then
        ("error", [mkRow "error" (some ("Ingestion error: " ++ env.processErrMsg))])
      else
        ("success", [mkRow "success" none])

/-! ## Concrete sample inputs used by witnesses and counterexamples -/

/-- An analysis result carrying two high-severity issues. -/
def sampleTwoHigh : PDFAnalysisResult where
  filepath := "/w.pdf"
  filesize := 9
  num_pages := 1
  is_encrypted := false
  is_damaged := false
  issues := [⟨PDFIssueType.DAMAGED, "broken xref table", "high", [], []⟩,
             ⟨PDFIssueType.ENCRYPTED, "unsupported cipher", "high", [], []⟩]

/-- A damaged analysis result whose SCANNED_IMAGE issue has severity high. -/
def sampleScannedHigh : PDFAnalysisResult where
  filepath := "/s.pdf"
  filesize := 5
  num_pages := 1
  is_encrypted := false
  is_damaged := true
  issues := [⟨PDFIssueType.SCANNED_IMAGE, "Probably a scanned document", "high", [], []⟩]

/-- A damaged analysis result whose SCANNED_IMAGE issue has severity medium. -/
def sampleScannedMedium : PDFAnalysisResult where
  filepath := "/s.pdf"
  filesize := 5
  num_pages := 1
  is_encrypted := false
  is_damaged := true
  issues := [⟨PDFIssueType.SCANNED_IMAGE, "Probably a scanned document", "medium", [], []⟩]

/-- An acceptable analysis result: one page, no flags, no issues. -/
def sampleAcceptable : PDFAnalysisResult where
  filepath := "/ok.pdf"
  filesize := 100
  num_pages := 1
  is_encrypted := false
  is_damaged := false

/-- An analyzer environment where the file exists with a valid header and
both parsers fail (the primary one, as always in the shipped code, because
`PyMuPDFInterface` has no `analyze_pdf`; the pikepdf fallback by raising). -/
def sampleRaisingEnv : AnalyzeEnv where
  path := "/x.pdf"
  fileExists := true
  filesize := 7
  headerIsPDF := true
  pymupdf := none
  pymupdfErr := "AttributeError"
  pikepdf := .raises "pikepdf failure"

/-- The damaged result `analyze_file` produces for `sampleRaisingEnv`. -/
def sampleDamagedResult : PDFAnalysisResult where
  filepath := "/x.pdf"
  filesize := 7
  num_pages := 0
  is_encrypted := false
  is_damaged := true
  issues := [⟨PDFIssueType.DAMAGED,
    "Failed to analyze PDF: AttributeError; pikepdf failure", "high", [], []⟩]

/-- An analyzer environment for an existing file without the `%PDF-` magic
bytes. -/
def sampleBadHeaderEnv : AnalyzeEnv where
  path := "/x.bin"
  fileExists := true
  filesize := 3
  headerIsPDF := false
  pymupdf := none
  pymupdfErr := "AttributeError"
  pikepdf := .raises "boom"

/-! ## Supporting lemmas -/

/-- Every element of the joined list occurs as a substring of the join. -/
theorem joinSep_contains (sep d : String) :
    ∀ l : List String, d ∈ l → strContainsSub d (joinSep sep l) := by
  intro l
  induction l with
  | nil => intro h; cases h
  | cons x xs ih =>
    intro hmem
    cases xs with
    | nil =>
      rcases List.mem_cons.mp hmem with h | h
      · exact ⟨[], [], by simp [joinSep, h]⟩
      · cases h
    | cons y ys =>
      rcases List.mem_cons.mp hmem with h | h
      · subst h
        refine ⟨[], (sep ++ joinSep sep (y :: ys)).data, ?_⟩
        simp [joinSep, String.data_append]
      · rcases ih h with ⟨p, s, hps⟩
        refine ⟨(x ++ sep).data ++ p, s, ?_⟩
        simp [joinSep, String.data_append, hps]

/-- Substring containment is preserved by prepending. -/
theorem strContainsSub_append_left (pre needle hay : String)
    (h : strContainsSub needle hay) : strContainsSub needle (pre ++ hay) := by
  rcases h with ⟨p, s, hps⟩
  exact ⟨pre.data ++ p, s, by simp [String.data_append, hps]⟩

/-- The pikepdf font loop never touches the `is_damaged` flag. -/
theorem pkFontsGo_is_damaged :
    ∀ (fs : List PkFont) (seen : List String) (r : PDFAnalysisResult),
      (pkFontsGo fs seen r).is_damaged = r.is_damaged := by
  intro fs
  induction fs with
  | nil => intro seen r; rfl
  | cons f fs ih =>
    intro seen r
    by_cases h : f.base_font ∈ seen
    · simp [pkFontsGo, h, ih]
    · simp [pkFontsGo, h, ih]

/-- The pikepdf success path never touches the `is_damaged` flag. -/
theorem analyze_with_pikepdf_is_damaged (d : PikepdfData) (r : PDFAnalysisResult) :
    (analyze_with_pikepdf d r).is_damaged = r.is_damaged := by
  unfold analyze_with_pikepdf
  rw [pkFontsGo_is_damaged]
  split <;> split <;> split <;> rfl

/-- `maxById` returns an element of its input list. -/
theorem maxById_mem : ∀ {l : List IngRow} {x : IngRow}, maxById l = some x → x ∈ l := by
  intro l
  induction l with
  | nil => intro x h; cases h
  | cons a as ih =>
    intro x h
    rw [maxById] at h
    cases hm : maxById as with
    | none => rw [hm] at h; cases h; exact List.mem_cons_self a as
    | some y =>
      rw [hm] at h
      by_cases hid : a.id < y.id
      · simp only [hid, if_true] at h
        cases h
        exact List.mem_cons_of_mem a (ih hm)
      · simp only [hid, if_false] at h
        cases h
        exact List.mem_cons_self a as

/-- `maxById` yields a value on any non-empty list. -/
theorem maxById_isSome :
    ∀ {l : List IngRow}, l ≠ [] → ∃ x, maxById l = some x := by
  intro l
  cases l with
  | nil => intro h; exact absurd rfl h
  | cons a as =>
    intro _
    rw [maxById]
    cases maxById as with
    | none => exact ⟨a, rfl⟩
    | some y =>
      by_cases hid : a.id < y.id
      · exact ⟨y, by simp [hid]⟩
      · exact ⟨a, by simp [hid]⟩

/-- `sliceChunksF` with enough fuel and a positive slice size concatenates
back to the input list. -/
theorem sliceChunksF_join (bs : Nat) (hbs : 0 < bs) :
    ∀ (fuel : Nat) (l : List α), l.length ≤ fuel →
      (sliceChunksF bs fuel l).flatten = l := by
  intro fuel
  induction fuel with
  | zero =>
    intro l hl
    have : l = [] := List.eq_nil_of_length_eq_zero (Nat.le_zero.mp hl)
    subst this
    rfl
  | succ n ih =>
    intro l hl
    cases l with
    | nil => rfl
    | cons x xs =>
      have hdrop : ((x :: xs).drop bs).length ≤ n := by
        rw [List.length_drop]
        omega
      calc (sliceChunksF bs (n + 1) (x :: xs)).flatten
          = (x :: xs).take bs ++ (sliceChunksF bs n ((x :: xs).drop bs)).flatten := by
            rw [sliceChunksF]; rfl
        _ = (x :: xs).take bs ++ (x :: xs).drop bs := by rw [ih _ hdrop]
        _ = x :: xs := List.take_append_drop bs (x :: xs)

/-- Every batch produced by `sliceChunksF` is non-empty and no longer than
the slice size. -/
theorem sliceChunksF_mem_length (bs : Nat) (hbs : 0 < bs) :
    ∀ (fuel : Nat) (l : List α) (b : List α), b ∈ sliceChunksF bs fuel l →
      0 < b.length ∧ b.length ≤ bs := by
  intro fuel
  induction fuel with
  | zero =>
    intro l b hb
    cases l <;> simp [sliceChunksF] at hb
  | succ n ih =>
    intro l b hb
    cases l with
    | nil => simp [sliceChunksF] at hb
    | cons x xs =>
      rw [sliceChunksF] at hb
      rcases List.mem_cons.mp hb with h | h
      · subst h
        constructor
        · simp [List.length_take]
          omega
        · simp [List.length_take]
      · exact ih _ _ h

/-- `sliceChunksF` on the empty list is empty, for any fuel. -/
theorem sliceChunksF_nil (bs : Nat) : ∀ fuel : Nat, sliceChunksF bs fuel ([] : List α) = [] := by
  intro fuel
  cases fuel <;> rfl

/-- All batches except possibly the last have exactly the slice size. -/
theorem sliceChunksF_dropLast (bs : Nat) (hbs : 0 < bs) :
    ∀ (fuel : Nat) (l : List α) (b : List α),
      b ∈ (sliceChunksF bs fuel l).dropLast → b.length = bs := by
  intro fuel
  induction fuel with
  | zero =>
    intro l b hb
    cases l <;> simp [sliceChunksF] at hb
  | succ n ih =>
    intro l b hb
    cases l with
    | nil => simp [sliceChunksF] at hb
    | cons x xs =>
      rw [sliceChunksF] at hb
      cases hrest : sliceChunksF bs n ((x :: xs).drop bs) with
      | nil => rw [hrest] at hb; simp at hb
      | cons r rs =>
        rw [hrest, List.dropLast_cons₂] at hb
        rcases List.mem_cons.mp hb with h | h
        · subst h
          have hne : (x :: xs).drop bs ≠ [] := by
            intro hcon
            rw [hcon, sliceChunksF_nil] at hrest
            cases hrest
          have hlen : bs ≤ (x :: xs).length := by
            by_contra hcon
            push_neg at hcon
            exact hne (List.drop_eq_nil_of_le (Nat.le_of_lt hcon))
          rw [List.length_take]
          exact Nat.min_eq_left hlen
        · exact ih _ _ (by rw [hrest]; exact h)

/-- Case analysis over every branch of `ingest_file`: the early
`already_processed` return appends no row, and every other branch appends
exactly one row carrying the returned status. -/
theorem ingest_file_row_shape (db : Db) (collection runId : String)
    (env : IngestEnv) :
    ((ingest_file db collection runId env).1 = "already_processed" ∧
      (ingest_file db collection runId env).2 = []) ∨
    (∃ row, (ingest_file db collection runId env).2 = [row] ∧
      row.status = (ingest_file db collection runId env).1 ∧
      ((ingest_file db collection runId env).1 = "success" ∨
       (ingest_file db collection runId env).1 = "error" ∨
       (ingest_file db collection runId env).1 = "skipped")) := by
  unfold ingest_file
  simp only []
  repeat' split
  all_goals simp_all

/-! ## Claims -/

/-- C1.  The claim says `distribute_embeddings` returns the i-th input
chunk's embedding at output position i regardless of completion order.  The
source extends `results` with each batch's output *at completion time*
(`results.extend(batch_result)` inside the `ray.wait` loop), so a completion
order different from dispatch order permutes the output: with four chunks,
two workers (batches `[0,1]` and `[2,3]`) and the second worker finishing
first, the output is the embeddings of chunks 2,3,0,1 — `output[0]` is the
embedding of `input[2]`. -/
theorem C1_completion_order_scrambles_output :
    distribute_embeddings (fun n => n + 100) [0, 1, 2, 3] 2 [1, 0] =
      some [102, 103, 100, 101] ∧
    some [102, 103, 100, 101] ≠
      some (List.map (fun n => n + 100) [0, 1, 2, 3]) := by
  decide

/-- C2.  The claim says an exception escaping the orchestration loop forces
the persisted status to `failed`.  The CLI handler indeed sets
`run_manager.status = "failed"` — but then calls `end_run()`, which
recomputes the status from the counters and persists that instead: with
`failed_files = 0` the run ends `completed`, not `failed`. -/
theorem C2_escaped_exception_not_persisted_as_failed :
    cli_mark_run_failed
      ⟨some "run-1", 5, 3, 0, 2, 0, "running"⟩ =
      .ok ⟨some "run-1", 5, 3, 0, 2, 0, "completed"⟩ ∧
    ("completed" : String) ≠ "failed" :=
  ⟨rfl, by decide⟩

/-- C3 counterexample.  The claim says any ledger record with fingerprint f
and collection c makes `file_needs_processing f c` return false.  The SQL
joins `runs` and filters on the *run's* collection, not the record's own
`collection` column: a log row whose own collection is "C1" but whose owning
run is recorded under collection "C2" does not block reprocessing. -/
theorem C3_record_collection_ignored :
    (Db.mk [⟨"r1", some "C2"⟩]
      [⟨1, "/a.pdf", "C1", "error", "r1", "fp"⟩]).ingestion_log.any
        (fun il => il.file_fingerprint == "fp" && il.collection == "C1") = true ∧
    file_needs_processing
      (Db.mk [⟨"r1", some "C2"⟩] [⟨1, "/a.pdf", "C1", "error", "r1", "fp"⟩])
      "fp" "C1" = (true, none) := by
  decide

/-- C3 amended.  If a ledger record with fingerprint f exists whose owning
run is recorded in `runs` with collection c, then `file_needs_processing`
returns false together with such a previous record (the most recent one),
regardless of the record's status. -/
theorem C3_needs_processing_false_on_prior_record
    (db : Db) (f c : String) (il : IngRow)
    (hmem : il ∈ db.ingestion_log)
    (hfp : il.file_fingerprint = f)
    (hrun : ∃ r ∈ db.runs, r.run_id = il.run_id ∧ r.collection = some c) :
    (file_needs_processing db f c).1 = false ∧
    ∃ prev, (file_needs_processing db f c).2 = some prev ∧
      prev.file_fingerprint = f ∧
      ∃ r ∈ db.runs, r.run_id = prev.run_id ∧ r.collection = some c := by
  have hpred : (fun il : IngRow =>
      il.file_fingerprint == f &&
      db.runs.any (fun r => r.run_id == il.run_id && r.collection == some c)) il = true := by
    rcases hrun with ⟨r, hrmem, hrid, hrcol⟩
    simp only [Bool.and_eq_true, beq_iff_eq, List.any_eq_true]
    exact ⟨hfp, r, hrmem, by simp [hrid, hrcol]⟩
  have hfmem : il ∈ db.ingestion_log.filter (fun il : IngRow =>
      il.file_fingerprint == f &&
      db.runs.any (fun r => r.run_id == il.run_id && r.collection == some c)) :=
    List.mem_filter.mpr ⟨hmem, hpred⟩
  have hfne : db.ingestion_log.filter (fun il : IngRow =>
      il.file_fingerprint == f &&
      db.runs.any (fun r => r.run_id == il.run_id && r.collection == some c)) ≠ [] :=
    List.ne_nil_of_mem hfmem
  rcases maxById_isSome hfne with ⟨prev, hprev⟩
  have hprevmem := maxById_mem hprev
  have hprevpred := (List.mem_filter.mp hprevmem).2
  simp only [Bool.and_eq_true, beq_iff_eq, List.any_eq_true] at hprevpred
  rcases hprevpred with ⟨hpf, r, hrmem, hr⟩
  have hfnp : file_needs_processing db f c = (false, some prev) := by
    unfold file_needs_processing get_ingestion_by_fingerprint
    rw [hprev]
  exact ⟨by rw [hfnp], prev, by rw [hfnp], hpf, r, hrmem, hr.1, hr.2⟩

/-- Witness for the C3 amended theorem at a concrete ledger. -/
theorem C3_needs_processing_false_on_prior_record_witness :
    (file_needs_processing
      (Db.mk [⟨"r1", some "C1"⟩] [⟨1, "/a.pdf", "C1", "error", "r1", "fp"⟩])
      "fp" "C1").1 = false :=
  (C3_needs_processing_false_on_prior_record
    (Db.mk [⟨"r1", some "C1"⟩] [⟨1, "/a.pdf", "C1", "error", "r1", "fp"⟩])
    "fp" "C1" ⟨1, "/a.pdf", "C1", "error", "r1", "fp"⟩
    (by decide) (by decide) ⟨⟨"r1", some "C1"⟩, by decide, by decide, by decide⟩).1

/-- C4.  Any analysis result with a high-severity issue is rejected by the
acceptance policy, and the rejection reason contains the description of
every high-severity issue (they are comma-joined after the
"Critical issues detected: " prefix). -/
theorem C4_high_severity_rejects_with_all_descriptions
    (r : PDFAnalysisResult) (h : ∃ i ∈ r.issues, i.severity = "high") :
    (is_pdf_acceptable r).1 = false ∧
    ∀ i ∈ r.issues, i.severity = "high" →
      strContainsSub i.description (is_pdf_acceptable r).2.1 := by
  have hcrit : has_critical_issues r = true := by
    rcases h with ⟨i, hi, hsev⟩
    unfold has_critical_issues
    rw [List.any_eq_true]
    exact ⟨i, hi, by simp [hsev]⟩
  unfold is_pdf_acceptable
  rw [hcrit]
  refine ⟨rfl, ?_⟩
  intro i hi hsev
  simp only [if_true]
  apply strContainsSub_append_left
  apply joinSep_contains
  rw [List.mem_map]
  exact ⟨i, List.mem_filter.mpr ⟨hi, by simp [hsev]⟩, rfl⟩

/-- Witness for C4 at a concrete result with two high-severity issues. -/
theorem C4_high_severity_rejects_with_all_descriptions_witness :
    (∃ i ∈ sampleTwoHigh.issues, i.severity = "high") ∧
    (is_pdf_acceptable sampleTwoHigh).1 = false ∧
    ∀ i ∈ sampleTwoHigh.issues, i.severity = "high" →
      strContainsSub i.description (is_pdf_acceptable sampleTwoHigh).2.1 :=
  ⟨by decide,
    C4_high_severity_rejects_with_all_descriptions sampleTwoHigh (by decide)⟩

/-- C5 counterexample.  A result that is damaged and carries a SCANNED_IMAGE
issue of severity "high" is rejected by precedence rule 1 (critical issues),
so the reason is not the damaged reason — the claim, which requires the
damaged reason for *every* damaged result with a SCANNED_IMAGE issue, fails
here. -/
theorem C5_high_scanned_image_preempts_damaged_reason :
    sampleScannedHigh.is_damaged = true ∧
    (∃ i ∈ sampleScannedHigh.issues, i.type = PDFIssueType.SCANNED_IMAGE) ∧
    (is_pdf_acceptable sampleScannedHigh).1 = false ∧
    (is_pdf_acceptable sampleScannedHigh).2.1 ≠ "PDF is damaged" := by
  decide

/-- C5 amended.  A damaged result with a SCANNED_IMAGE issue and no
high-severity issue is rejected with the damaged reason (rule 2 outranks
rule 5). -/
theorem C5_damaged_outranks_scanned_image
    (r : PDFAnalysisResult) (hd : r.is_damaged = true)
    (hs : ∃ i ∈ r.issues, i.type = PDFIssueType.SCANNED_IMAGE)
    (hnh : ∀ i ∈ r.issues, i.severity ≠ "high") :
    (is_pdf_acceptable r).1 = false ∧
    (is_pdf_acceptable r).2.1 = "PDF is damaged" := by
  have hcrit : has_critical_issues r = false := by
    unfold has_critical_issues
    rw [List.any_eq_false]
    intro i hi
    simp [hnh i hi]
  unfold is_pdf_acceptable
  rw [hcrit, hd]
  exact ⟨rfl, rfl⟩

/-- Witness for the C5 amended theorem. -/
theorem C5_damaged_outranks_scanned_image_witness :
    (is_pdf_acceptable sampleScannedMedium).1 = false ∧
    (is_pdf_acceptable sampleScannedMedium).2.1 = "PDF is damaged" :=
  C5_damaged_outranks_scanned_image sampleScannedMedium
    (by decide) (by decide) (by decide)

/-- C6 counterexample.  The claim says at most `N` batches of size
`ceil(total/N)`.  The source computes `batch_size = max(1, total // N)`
(floor division): 3 chunks over 2 workers give batch size 1 and *three*
batches, more than the 2 workers — so not every worker gets exactly one
batch, and no batch has the claimed size `ceil(3/2) = 2`. -/
theorem C6_floor_batching_exceeds_worker_count :
    mkBatches ([0, 1, 2] : List Nat) 2 = [[0], [1], [2]] ∧
    2 < (mkBatches ([0, 1, 2] : List Nat) 2).length := by
  decide

/-- C6 amended.  The chunk sequence is partitioned into contiguous batches
of exactly `max 1 (total / N)` elements (floor division), with only the last
batch possibly smaller; the number of batches can exceed `N`, in which case
the dynamic dispatch loop hands some workers more than one batch. -/
theorem C6_batches_are_floor_sized_partition
    (chunks : List Nat) (workers : Nat) :
    (mkBatches chunks workers).flatten = chunks ∧
    (∀ b ∈ mkBatches chunks workers,
      0 < b.length ∧ b.length ≤ batchSizeOf chunks.length workers) ∧
    (∀ b ∈ (mkBatches chunks workers).dropLast,
      b.length = batchSizeOf chunks.length workers) := by
  have hbs : 0 < batchSizeOf chunks.length workers := by
    unfold batchSizeOf
    omega
  refine ⟨?_, ?_, ?_⟩
  · exact sliceChunksF_join _ hbs _ _ (Nat.le_refl _)
  · intro b hb
    exact sliceChunksF_mem_length _ hbs _ _ _ hb
  · intro b hb
    exact sliceChunksF_dropLast _ hbs _ _ _ hb

/-- Witness for the C6 amended theorem. -/
theorem C6_batches_are_floor_sized_partition_witness :
    (mkBatches ([0, 1, 2] : List Nat) 2).flatten = [0, 1, 2] ∧
    0 < ([0] : List Nat).length ∧ ([0] : List Nat).length ≤ batchSizeOf 3 2 :=
  ⟨(C6_batches_are_floor_sized_partition [0, 1, 2] 2).1,
    (C6_batches_are_floor_sized_partition [0, 1, 2] 2).2.1 [0] (by decide)⟩

/-- C7.  Every result actually produced by `analyze_file` with
`is_damaged = true` carries a DAMAGED issue.  The hypothesis
`env.pymupdf = none` states that the primary-parser call raises, which is
the only behaviour of the shipped code: `PyMuPDFInterface` defines no
`analyze_pdf` method, so `self.pymupdf.analyze_pdf(...)` always raises
`AttributeError` and the dict-processing branch is unreachable. -/
theorem C7_damaged_implies_damaged_issue
    (env : AnalyzeEnv) (r : PDFAnalysisResult)
    (hpm : env.pymupdf = none)
    (hres : analyze_file env = .ok r)
    (hdmg : r.is_damaged = true) :
    ∃ i ∈ r.issues, i.type = PDFIssueType.DAMAGED := by
  unfold analyze_file at hres
  by_cases hex : env.fileExists
  · simp only [hex, Bool.not_true, Bool.false_eq_true, if_false] at hres
    by_cases hh : env.headerIsPDF
    · simp only [hh, Bool.not_true, Bool.false_eq_true, if_false, hpm] at hres
      cases hpk : env.pikepdf with
      | raises msg =>
        rw [hpk] at hres
        simp only [runPikepdf, Except.ok.injEq] at hres
        subst hres
        exact ⟨_, List.mem_cons_self _ _, rfl⟩
      | passwordError =>
        rw [hpk] at hres
        simp only [runPikepdf, Except.ok.injEq] at hres
        subst hres
        simp at hdmg
      | ok d =>
        rw [hpk] at hres
        simp only [runPikepdf, Except.ok.injEq] at hres
        subst hres
        rw [analyze_with_pikepdf_is_damaged] at hdmg
        simp at hdmg
    · simp only [hh, Bool.not_false, if_true, Except.ok.injEq] at hres
      subst hres
      exact ⟨_, List.mem_cons_self _ _, rfl⟩
  · simp only [hex] at hres
    simp at hres

/-- Witness for C7: both parsers failing yields a damaged result, and the
theorem exhibits its DAMAGED issue. -/
theorem C7_damaged_implies_damaged_issue_witness :
    ∃ i ∈ sampleDamagedResult.issues, i.type = PDFIssueType.DAMAGED :=
  C7_damaged_implies_damaged_issue sampleRaisingEnv sampleDamagedResult
    rfl rfl rfl

/-- C8.  For an existing file, `analyze_file` never raises: it always
returns a result; a missing `%PDF-` signature short-circuits to a damaged
result with a high-severity DAMAGED issue whatever the parsers would do
(they are not invoked — the output is invariant under both parser
behaviours); and when the primary parse fails (it always does in the
shipped code) and the pikepdf fallback raises too, the result is damaged
with a high-severity DAMAGED issue instead of a propagated exception. -/
theorem C8_never_raises_for_malformed_input
    (env : AnalyzeEnv) (hex : env.fileExists = true) :
    (∃ r, analyze_file env = .ok r) ∧
    (env.headerIsPDF = false →
      ∀ pm pk, analyze_file { env with pymupdf := pm, pikepdf := pk } =
        .ok { filepath := env.path
              filesize := env.filesize
              num_pages := 0
              is_encrypted := false
              is_damaged := true
              issues := [⟨PDFIssueType.DAMAGED,
                "File does not appear to be a valid PDF", "high", [], []⟩] }) ∧
    (∀ msg, (env.pymupdf = none ∨ ∃ a, env.pymupdf = some a ∧ a.success = false) →
      env.pikepdf = PikepdfOutcome.raises msg →
      ∃ r, analyze_file env = .ok r ∧ r.is_damaged = true ∧
        ∃ i ∈ r.issues, i.type = PDFIssueType.DAMAGED ∧ i.severity = "high") := by
  obtain ⟨path, fex, fsz, hdr, pm, pmErr, pk⟩ := env
  simp only at hex
  subst hex
  refine ⟨?_, ?_, ?_⟩
  · cases hdr with
    | false => exact ⟨_, rfl⟩
    | true =>
      cases pm with
      | none =>
        cases pk with
        | raises msg => exact ⟨_, rfl⟩
        | passwordError => exact ⟨_, rfl⟩
        | ok d => exact ⟨_, rfl⟩
      | some a =>
        obtain ⟨asucc, aerr, anp, aenc, adm, amd, aet, afonts, aiss⟩ := a
        cases asucc with
        | true => exact ⟨_, rfl⟩
        | false =>
          cases pk with
          | raises msg => exact ⟨_, rfl⟩
          | passwordError => exact ⟨_, rfl⟩
          | ok d => exact ⟨_, rfl⟩
  · intro hh pm' pk'
    simp only at hh
    subst hh
    rfl
  · intro msg hfail hpk
    simp only at hpk
    subst hpk
    cases hdr with
    | false => exact ⟨_, rfl, rfl, _, List.mem_cons_self _ _, rfl, rfl⟩
    | true =>
      rcases hfail with hnone | ⟨a, ha, hsucc⟩
      · simp only at hnone
        subst hnone
        exact ⟨_, rfl, rfl, _, List.mem_cons_self _ _, rfl, rfl⟩
      · simp only at ha
        subst ha
        obtain ⟨asucc, aerr, anp, aenc, adm, amd, aet, afonts, aiss⟩ := a
        simp only at hsucc
        subst hsucc
        exact ⟨_, rfl, rfl, _, List.mem_cons_self _ _, rfl, rfl⟩

/-- Witness for C8 at a concrete malformed-header environment, discharging
every hypothesis of the theorem. -/
theorem C8_never_raises_for_malformed_input_witness :
    (∃ r, analyze_file sampleBadHeaderEnv = .ok r) ∧
    analyze_file { sampleBadHeaderEnv with pymupdf := none, pikepdf := .raises "other" } =
      .ok { filepath := "/x.bin"
            filesize := 3
            num_pages := 0
            is_encrypted := false
            is_damaged := true
            issues := [⟨PDFIssueType.DAMAGED,
              "File does not appear to be a valid PDF", "high", [], []⟩] } ∧
    ∃ r, analyze_file sampleBadHeaderEnv = .ok r ∧ r.is_damaged = true ∧
      ∃ i ∈ r.issues, i.type = PDFIssueType.DAMAGED ∧ i.severity = "high" :=
  ⟨(C8_never_raises_for_malformed_input sampleBadHeaderEnv rfl).1,
    (C8_never_raises_for_malformed_input sampleBadHeaderEnv rfl).2.1 rfl
      none (.raises "other"),
    (C8_never_raises_for_malformed_input sampleBadHeaderEnv rfl).2.2 "boom"
      (Or.inl rfl) rfl⟩

/-- C9 counterexample.  The claim says every `ingest_file` call appends
exactly one ingestion-log row whose status equals the returned outcome, for
all four outcomes.  The `already_processed` early return logs nothing: with
a prior ledger record for the fingerprint, the call returns
`already_processed` and appends zero rows. -/
theorem C9_already_processed_logs_no_row :
    ingest_file
      (Db.mk [⟨"r1", some "Docs"⟩] [⟨1, "/a.pdf", "Docs", "error", "r1", "fp"⟩])
      "Docs" "r9"
      { pdf_path := "/a.pdf", fingerprint := "fp", analysis := none } =
      ("already_processed", []) ∧
    ([] : List LoggedRow).length = 0 := by
  decide

/-- C9 amended.  Every `ingest_file` call either returns
`already_processed` and appends no row, or appends exactly one row whose
status equals the returned outcome, which is then one of `success`, `error`
or `skipped`. -/
theorem C9_one_row_unless_already_processed
    (db : Db) (collection runId : String) (env : IngestEnv)
    (st : String) (rows : List LoggedRow)
    (h : ingest_file db collection runId env = (st, rows)) :
    (st = "already_processed" ∧ rows = []) ∨
    (∃ row, rows = [row] ∧ row.status = st ∧
      (st = "success" ∨ st = "error" ∨ st = "skipped")) := by
  have haux := ingest_file_row_shape db collection runId env
  rw [h] at haux
  exact haux

/-- Witness for the C9 amended theorem: a successful ingestion appends
exactly one `success` row. -/
theorem C9_one_row_unless_already_processed_witness :
    (("success" : String) = "already_processed" ∧
      ([⟨"/ok.pdf", "Docs", "success", none, "r1", "fpOK"⟩] : List LoggedRow) = []) ∨
    (∃ row, ([⟨"/ok.pdf", "Docs", "success", none, "r1", "fpOK"⟩] : List LoggedRow) = [row] ∧
      row.status = "success" ∧
      (("success" : String) = "success" ∨ ("success" : String) = "error" ∨
        ("success" : String) = "skipped")) :=
  C9_one_row_unless_already_processed (Db.mk [] []) "Docs" "r1"
    { pdf_path := "/ok.pdf", fingerprint := "fpOK",
      analysis := some sampleAcceptable, extractedText := "hello",
      chunks := ["hello"] }
    "success" [⟨"/ok.pdf", "Docs", "success", none, "r1", "fpOK"⟩] (by decide)

/-- C10.  The four counter operations of the run controller: with no run in
progress (`run_id` unset, i.e. falsy) each raises `ValueError` and leaves
the state — in particular every counter — unchanged; with a run in progress
none raises, each adds exactly one to its own counter and
`increment_already_processed` also adds one to `skipped_files`. -/
theorem C10_counter_operations (rm : RunMgrState) :
    (runIdFalsy rm = true →
      increment_processed rm = (.error noRunMsg, rm) ∧
      increment_failed rm = (.error noRunMsg, rm) ∧
      increment_skipped rm = (.error noRunMsg, rm) ∧
      increment_already_processed rm = (.error noRunMsg, rm)) ∧
    (runIdFalsy rm = false →
      increment_processed rm = (.ok (rm.processed_files + 1),
        { rm with processed_files := rm.processed_files + 1 }) ∧
      increment_failed rm = (.ok (rm.failed_files + 1),
        { rm with failed_files := rm.failed_files + 1 }) ∧
      increment_skipped rm = (.ok (rm.skipped_files + 1),
        { rm with skipped_files := rm.skipped_files + 1 }) ∧
      increment_already_processed rm = (.ok (rm.already_processed_files + 1),
        { rm with
          already_processed_files := rm.already_processed_files + 1
          skipped_files := rm.skipped_files + 1 })) := by
  constructor
  · intro hf
    refine ⟨?_, ?_, ?_, ?_⟩ <;>
      simp [increment_processed, increment_failed, increment_skipped,
        increment_already_processed, hf]
  · intro hf
    refine ⟨?_, ?_, ?_, ?_⟩ <;>
      simp [increment_processed, increment_failed, increment_skipped,
        increment_already_processed, hf]

/-- Witness for C10 at a concrete unset-run state and a concrete running
state. -/
theorem C10_counter_operations_witness :
    increment_processed ⟨none, 0, 0, 0, 0, 0, "not_started"⟩ =
      (.error noRunMsg, ⟨none, 0, 0, 0, 0, 0, "not_started"⟩) ∧
    increment_already_processed ⟨some "r", 4, 1, 0, 2, 1, "running"⟩ =
      (.ok 2, ⟨some "r", 4, 1, 0, 3, 2, "running"⟩) :=
  ⟨((C10_counter_operations ⟨none, 0, 0, 0, 0, 0, "not_started"⟩).1 rfl).1,
    ((C10_counter_operations ⟨some "r", 4, 1, 0, 2, 1, "running"⟩).2 (by decide)).2.2.2⟩

end CakeGobbler
